import Mathlib

/-!
Shallow embedding of the nex node machine manager
(`internal/node/machine_mgr.go`) and its control API listener
(`internal/node/controlapi.go`), together with theorems settling the
frozen claims about the natural-language specification.

State of the manager (registry maps, telemetry counters, emitted events
and internal bus requests) is carried explicitly through each operation.
External collaborators (the NATS transport, the agent API predicate for
trigger support, the OpenTelemetry propagator) are supplied as oracle
parameters so that every branch of the translated source is reachable.
-/

namespace Nex

/-! ## Association-list helpers (Go maps keyed by vmid) -/

/-- Lookup in a Go map modelled as an association list. -/
def lookupA {α : Type} : List (String × α) → String → Option α
  | [], _ => none
  | (k, v) :: rest, key => if k = key then some v else lookupA rest key

/-- Map assignment `m[k] = v`: overwrite in place, or append when absent. -/
def putA {α : Type} : List (String × α) → String → α → List (String × α)
  | [], key, v => [(key, v)]
  | (k, w) :: rest, key, v =>
    if k = key then (k, v) :: rest else (k, w) :: putA rest key v

/-- Map deletion `delete(m, k)`. -/
def eraseA {α : Type} : List (String × α) → String → List (String × α)
  | [], _ => []
  | (k, w) :: rest, key =>
    if k = key then eraseA rest key else (k, w) :: eraseA rest key

/-- Update the value stored under a key, when present. -/
def updateA {α : Type} (l : List (String × α)) (key : String) (f : α → α) :
    List (String × α) :=
  match lookupA l key with
  | none => l
  | some v => putA l key (f v)

/-! ## Character-list helpers for `strings.Contains` -/

/-- Whether the pattern occurs at the start of the character list. -/
def charsStartWith : List Char → List Char → Bool
  | [], _ => true
  | _ :: _, [] => false
  | a :: as, b :: bs => a == b && charsStartWith as bs

/-- Whether the pattern occurs somewhere inside the character list. -/
def charsHaveSub (p : List Char) : List Char → Bool
  | [] => charsStartWith p []
  | c :: rest => charsStartWith p (c :: rest) || charsHaveSub p rest

/-- Model of Go `strings.Contains(s, p)`. -/
def strContains (s p : String) : Bool :=
  charsHaveSub p.data s.data

/-! ## Data model (machine_mgr.go) -/

/-- Relevant fields of `agentapi.DeployRequest` as used by the manager:
workload name and type, namespace, total bytes and trigger subjects. -/
structure DeployRequest where
  workloadName : String
  workloadType : String
  ns : String
  totalBytes : Int
  triggerSubjects : List String
deriving DecidableEq, Repr

/-- Relevant fields of a `runningFirecracker` record: the VM id, the
namespace bound at deploy time (Go field `namespace`, here `ns`), the
optional deploy binding, the machine configuration used by the counter
bookkeeping, and the workload start time set at deploy. -/
structure VMRec where
  vmmID : String
  ns : String := ""
  deployRequest : Option DeployRequest := none
  vcpuCount : Int := 1
  memSizeMib : Int := 256
  workloadStarted : Nat := 0
  claimsSubject : String := ""
  claimsIssuer : String := ""
deriving DecidableEq, Repr

/-- Telemetry counters of the node (`Telemetry` collaborator). Labeled
counters are total functions from the label values to the accumulated
amount; an OTel `Add` with attributes updates the function at the point
given by those attribute values. -/
structure Telemetry where
  vmCounter : Int := 0
  workloadCounterTy : String → Int := fun _ => 0
  workloadCounterTyNs : String → String → Int := fun _ _ => 0
  deployedByteCounter : Int := 0
  deployedByteCounterNs : String → Int := fun _ => 0
  allocatedVCPUCounter : Int := 0
  allocatedVCPUCounterNs : String → Int := fun _ => 0
  allocatedMemoryCounter : Int := 0
  allocatedMemoryCounterNs : String → Int := fun _ => 0

/-- Pointwise update of a counter labeled by one attribute. -/
def addTy (f : String → Int) (k : String) (d : Int) : String → Int :=
  fun x => if x = k then f x + d else f x

/-- Pointwise update of a counter labeled by two attributes. -/
def addTyNs (f : String → String → Int) (k1 k2 : String) (d : Int) :
    String → String → Int :=
  fun x y => if x = k1 ∧ y = k2 then f x y + d else f x y

/-- Explicit state of a `MachineManager`: the registry maps (`allVMs`,
`stopMutex`, `vmsubz`, `handshakes`), the telemetry counters, and traces
of the observable effects the manager performs (internal bus requests,
hypervisor shutdowns, published events), plus the atomic `closing` flag
and whether the warm pool channel has been closed. -/
structure MgrState where
  allVMs : List (String × VMRec) := []
  stopMutex : List String := []
  vmsubz : List (String × List String) := []
  handshakes : List (String × String) := []
  tele : Telemetry := {}
  internalRequests : List String := []
  shutdowns : List String := []
  events : List String := []
  closing : Nat := 0
  poolClosed : Bool := false

/-! ## StopMachine (machine_mgr.go lines 278 to 330) -/

/-- Counter decrements performed at the end of `StopMachine`: the
deploy-dependent block (workload and byte counters, only when the VM
carries a deploy request) followed by the unconditional block (VM count,
vCPU and memory). -/
def stopDecrCounters (t : Telemetry) (vm : VMRec) : Telemetry :=
  let t :=
    match vm.deployRequest with
    | some dr =>
      { t with
        workloadCounterTy := addTy t.workloadCounterTy dr.workloadType (-1)
        workloadCounterTyNs := addTyNs t.workloadCounterTyNs dr.workloadType vm.ns (-1)
        deployedByteCounter := t.deployedByteCounter + dr.totalBytes * (-1)
        deployedByteCounterNs := addTy t.deployedByteCounterNs vm.ns (dr.totalBytes * (-1)) }
    | none => t
  { t with
    vmCounter := t.vmCounter + (-1)
    allocatedVCPUCounter := t.allocatedVCPUCounter + vm.vcpuCount * (-1)
    allocatedVCPUCounterNs := addTy t.allocatedVCPUCounterNs vm.ns (vm.vcpuCount * (-1))
    allocatedMemoryCounter := t.allocatedMemoryCounter + vm.memSizeMib * (-1)
    allocatedMemoryCounterNs := addTy t.allocatedMemoryCounterNs vm.ns (vm.memSizeMib * (-1)) }

/-- Translation of `MachineManager.StopMachine(vmID, undeploy)`. A vmid
absent from `allVMs` yields the NotFound error with the state untouched.
Otherwise: subscriptions are drained (best effort, no state change
beyond the later map deletion), a graceful undeploy request is sent when
the VM carries a deploy request and `undeploy` is set, the hypervisor is
shut down, the three registry maps drop the vmid, a machine-stopped
event is published, and the counters are decremented. -/
def StopMachine (s : MgrState) (vmID : String) (undeploy : Bool) :
    Except String Unit × MgrState :=
  match lookupA s.allVMs vmID with
  | none => (.error ("failed to stop machine " ++ vmID), s)
  | some vm =>
    let s :=
      { s with internalRequests := s.internalRequests ++
          (if vm.deployRequest.isSome && undeploy then
            ["agentint." ++ vm.vmmID ++ ".undeploy"]
          else []) }
    let s := { s with shutdowns := s.shutdowns ++ [vm.vmmID] }
    let s := { s with
      allVMs := eraseA s.allVMs vmID
      stopMutex := s.stopMutex.erase vmID
      vmsubz := eraseA s.vmsubz vmID }
    let s := { s with events := s.events ++ ["machine_stopped:" ++ vm.vmmID] }
    (.ok (), { s with tele := stopDecrCounters s.tele vm })

/-! ## DeployWorkload (machine_mgr.go lines 183 to 253) -/

/-- Reply of the agent to a deploy request (`agentapi.DeployResponse`). -/
structure DeployResponse where
  accepted : Bool
  message : String := ""
deriving DecidableEq, Repr

/-- Possible outcomes of the internal `Request` on `agentint.<vmid>.deploy`:
the 1 s deadline elapses, another transport error occurs, the reply body
fails to decode, or a decoded reply arrives. -/
inductive DeployReplyOutcome
  | timeout
  | transportErr (e : String)
  | badJson (e : String)
  | reply (r : DeployResponse)
deriving DecidableEq, Repr

/-- Oracle for the external collaborators a deploy touches: the reply on
the internal deploy subject, the result of each `nc.Subscribe` on a
trigger subject (`none` is success, `some e` the error returned), the
agent-api predicate `request.SupportsTriggerSubjects()` (defined outside
the given sources), and the current time. -/
structure DeployEnv where
  deployReply : DeployReplyOutcome
  subscribeErr : String → Option String := fun _ => none
  supportsTriggerSubjects : Bool := false
  now : Nat := 0

/-- Map append `m.vmsubz[k] = append(m.vmsubz[k], v)`: a missing key acts
as the empty slice. -/
def appendSub (l : List (String × List String)) (k v : String) :
    List (String × List String) :=
  match lookupA l k with
  | some xs => putA l k (xs ++ [v])
  | none => putA l k [v]

/-- Counter increments performed after a fully successful deploy
(machine_mgr.go lines 243 to 250), using the fields of the bound VM
record. A vmid absent from the registry is a no-op here; in the source
the record is always present on this path. -/
def deployIncrCounters (s : MgrState) (vmID : String) : MgrState :=
  match lookupA s.allVMs vmID with
  | none => s
  | some vm =>
    match vm.deployRequest with
    | none => s
    | some dr =>
      let t := s.tele
      { s with tele :=
        { t with
          workloadCounterTy := addTy t.workloadCounterTy dr.workloadType 1
          workloadCounterTyNs := addTyNs t.workloadCounterTyNs dr.workloadType vm.ns 1
          deployedByteCounter := t.deployedByteCounter + dr.totalBytes
          deployedByteCounterNs := addTy t.deployedByteCounterNs vm.ns dr.totalBytes
          allocatedVCPUCounter := t.allocatedVCPUCounter + vm.vcpuCount
          allocatedVCPUCounterNs := addTy t.allocatedVCPUCounterNs vm.ns vm.vcpuCount
          allocatedMemoryCounter := t.allocatedMemoryCounter + vm.memSizeMib
          allocatedMemoryCounterNs := addTy t.allocatedMemoryCounterNs vm.ns vm.memSizeMib } }

/-- Loop over the trigger subjects (machine_mgr.go lines 216 to 236): on
a subscription error the VM is stopped with undeploy and the error is
returned; on success the subscription handle is appended to the per-VM
list. -/
def deploySubscribeLoop (env : DeployEnv) (vmID : String) :
    MgrState → List String → MgrState × Option String
  | s, [] => (s, none)
  | s, tsub :: rest =>
    match env.subscribeErr tsub with
    | some e =>
      let r := StopMachine s vmID true
      (r.2, some e)
    | none =>
      deploySubscribeLoop env vmID
        { s with vmsubz := appendSub s.vmsubz vmID tsub } rest

/-- Translation of `MachineManager.DeployWorkload(vm, request)`. The
request is bound to the VM record (deploy request, namespace, workload
start time), then sent on `agentint.<vmid>.deploy` with a 1 s timeout.
A deadline error yields the dedicated timeout message; other transport
errors are wrapped; a decoded reply with `accepted` leads to the trigger
subscriptions and the counter increments, while a rejection stops the VM
without undeploy and surfaces the agent message. -/
def DeployWorkload (env : DeployEnv) (s0 : MgrState) (vmID : String)
    (req : DeployRequest) : Except String Unit × MgrState :=
  let s := { s0 with
    allVMs := updateA s0.allVMs vmID (fun vm =>
      { vm with deployRequest := some req, ns := req.ns, workloadStarted := env.now })
    internalRequests := s0.internalRequests ++ ["agentint." ++ vmID ++ ".deploy"] }
  match env.deployReply with
  | .timeout =>
    (.error "timed out waiting for acknowledgement of workload deployment", s)
  | .transportErr e =>
    (.error ("failed to submit request for workload deployment: " ++ e), s)
  | .badJson e => (.error e, s)
  | .reply dr =>
    if dr.accepted then
      if env.supportsTriggerSubjects then
        match deploySubscribeLoop env vmID s req.triggerSubjects with
        | (s1, some e) => (.error e, s1)
        | (s1, none) => (.ok (), deployIncrCounters s1 vmID)
      else (.ok (), deployIncrCounters s vmID)
    else
      let r := StopMachine s vmID false
      (.error ("workload rejected by agent: " ++ dr.message), r.2)

/-! ## Handshake handling (machine_mgr.go lines 341 to 388) -/

/-- Body of an `agentint.handshake` message (`agentapi.HandshakeRequest`). -/
structure HandshakeRequest where
  machineID : String
  message : String := ""
deriving DecidableEq, Repr

/-- Translation of `MachineManager.handleHandshake`. The `parsed`
argument is the result of decoding the message body (`none` on a JSON
error), `respondOk` whether the transport delivered the empty-envelope
reply, and `now` the formatted current time. The result is the new state
and whether a reply was sent at all. An unknown machine id is logged and
ignored; the first-seen timestamp is recorded only after the reply
succeeded. -/
def handleHandshake (s : MgrState) (parsed : Option HandshakeRequest)
    (respondOk : Bool) (now : String) : MgrState × Bool :=
  match parsed with
  | none => (s, false)
  | some req =>
    match lookupA s.allVMs req.machineID with
    | none => (s, false)
    | some _ =>
      if respondOk then
        ({ s with handshakes := putA s.handshakes req.machineID now }, true)
      else (s, true)

/-- Environment observed by a handshake watchdog: the contents of the
handshake table and the manager stopping flag at each polling tick. -/
structure HsEnv where
  table : Nat → List (String × String)
  stopping : Nat → Bool

/-- Outcome of one watchdog run. -/
inductive HsResult
  | cancelNode
  | logTimeoutOnly
  | handshakeOk
  | managerStopping
deriving DecidableEq, Repr

/-- Translation of `MachineManager.awaitHandshake(vmid)`. Each iteration
checks the loop condition (handshake seen, manager stopping), then the
deadline: past the deadline the watchdog logs the timeout and, when the
handshake table is empty, cancels the node context. Otherwise it polls
the table for the vmid and sleeps one tick. The run is bounded by fuel;
`none` means the fuel ran out mid-loop. -/
def awaitHandshake (env : HsEnv) (vmid : String) (timeoutAt : Nat) :
    Nat → Nat → Bool → Option HsResult
  | 0, _, _ => none
  | fuel + 1, t, hsOk =>
    if hsOk then some .handshakeOk
    else if env.stopping t then some .managerStopping
    else if timeoutAt < t then
      if (env.table t).isEmpty then some .cancelNode else some .logTimeoutOnly
    else
      awaitHandshake env vmid timeoutAt fuel (t + 1)
        (lookupA (env.table t) vmid).isSome

/-! ## Warm pool channel (machine_mgr.go lines 100 to 101, 149 to 180) -/

/-- State of the warm-VM channel: the queued records and the capacity
the channel was created with (`config.MachinePoolSize`). -/
structure PoolState where
  queue : List String := []
  cap : Nat
deriving DecidableEq, Repr

/-- Send on a bounded channel: append when a slot is free; a send into a
full channel blocks, leaving the queue unchanged — the record is neither
dropped nor stored beyond capacity. -/
def chanSend (s : PoolState) (v : String) : PoolState :=
  if s.queue.length < s.cap then { s with queue := s.queue ++ [v] } else s

/-- Receive from the channel: take the oldest record; an empty channel
blocks. -/
def chanRecv (s : PoolState) : PoolState × Option String :=
  match s.queue with
  | [] => (s, none)
  | v :: rest => ({ s with queue := rest }, some v)

/-- One iteration of the pool maintainer loop (machine_mgr.go lines 154
to 178) restricted to its effect on the channel: at capacity it sleeps
and creates nothing; otherwise it creates a VM and sends it. The flag
reports whether a VM was created on this iteration. -/
def maintainerIter (s : PoolState) (v : String) : PoolState × Bool :=
  if s.queue.length == s.cap then (s, false) else (chanSend s v, true)

/-- Interleavable operations on the pool channel: a producer send, a
consumer receive, or a maintainer iteration. -/
inductive PoolOp
  | send (v : String)
  | recv
  | maintain (v : String)
deriving DecidableEq, Repr

/-- Effect of one operation on the channel. -/
def poolStep (s : PoolState) : PoolOp → PoolState
  | .send v => chanSend s v
  | .recv => (chanRecv s).1
  | .maintain v => (maintainerIter s v).1

/-- Effect of a sequence of operations. -/
def poolRun (s : PoolState) : List PoolOp → PoolState
  | [] => s
  | op :: ops => poolRun (poolStep s op) ops

/-! ## Manager Stop and socket cleanup (machine_mgr.go lines 258 to 274, 417 to 428) -/

/-- Translation of `MachineManager.cleanSockets`, given the process pid
and the names listed in the system temp directory. Returns the paths
passed to `os.Remove`: the names containing `.firecracker.sock-<pid>-`
as a substring, each joined under the relative path segment `tmp` (the
source calls `path.Join("tmp", name)`). -/
def cleanSockets (pid : Nat) (tempDirEntries : List String) : List String :=
  (tempDirEntries.filter
      (fun n => strContains n (".firecracker.sock-" ++ toString pid ++ "-"))).map
    (fun n => "tmp/" ++ n)

/-- Loop of `Stop` over the registry, stopping every VM with undeploy. -/
def stopAllLoop : MgrState → List String → MgrState
  | s, [] => s
  | s, vmID :: rest => stopAllLoop (StopMachine s vmID true).2 rest

/-- Translation of `MachineManager.Stop()`. The atomic increment of the
`closing` flag admits the body exactly once: close the warm pool, stop
every registered VM with undeploy, and clean this process sockets. The
second component is the list of paths removed by the cleanup. -/
def MgrStop (s : MgrState) (pid : Nat) (tempDirEntries : List String) :
    MgrState × List String :=
  let closing1 := s.closing + 1
  if closing1 = 1 then
    let s := { s with closing := closing1, poolClosed := true }
    let s := stopAllLoop s (s.allVMs.map Prod.fst)
    (s, cleanSockets pid tempDirEntries)
  else
    ({ s with closing := closing1 }, [])

/-! ## Trigger router (machine_mgr.go lines 430 to 522) -/

/-- A NATS message: subject, payload and headers. -/
structure NMsg where
  subject : String
  payload : String
  header : List (String × String) := []
deriving DecidableEq, Repr

/-- Header key carrying the external trigger subject. -/
def nexTriggerSubject : String := "x-nex-trigger-subject"

/-- Model of `otel.GetTextMapPropagator().Inject` into a header carrier:
W3C text-map propagation appends the `traceparent` entry holding the
current span context. -/
def injectTraceContext (spanCtx : String) (h : List (String × String)) :
    List (String × String) :=
  h ++ [("traceparent", spanCtx)]

/-- Message construction performed by the closure returned from
`MachineManager.generateTriggerHandler` on an inbound message (lines 446
to 458): the internal message on `agentint.<vmid>.trigger` receives the
inbound payload and the trigger-subject header, and the propagator then
injects the span context into the headers of the **inbound** message
`msg`. The result is the internal message as sent on the internal bus
and the inbound message after that header mutation. -/
def triggerHandlerMsgs (vmID : String) (spanCtx : String) (msg : NMsg) :
    NMsg × NMsg :=
  let intmsg : NMsg :=
    { subject := "agentint." ++ vmID ++ ".trigger"
      payload := msg.payload
      header := [(nexTriggerSubject, msg.subject)] }
  let msg1 : NMsg := { msg with header := injectTraceContext spanCtx msg.header }
  (intmsg, msg1)

/-! ## Control API listener (controlapi.go) -/

/-- Translation of `validateIssuer` (controlapi.go lines 332 to 337). -/
def validateIssuer (issuer : String) (validIssuers : List String) : Bool :=
  if validIssuers.length == 0 then true
  else validIssuers.contains issuer

/-- Split of a character list on a separator character, yielding the
groups between separators (model of Go `strings.Split` for the
single-character separator used by the listener). -/
def splitOnChar (c : Char) : List Char → List (List Char)
  | [] => [[]]
  | a :: rest =>
    if a == c then [] :: splitOnChar c rest
    else
      match splitOnChar c rest with
      | [] => [[a]]
      | g :: gs => (a :: g) :: gs

/-- Model of `strings.Split(s, sep)` for a one-character separator. -/
def goSplit (s : String) (sep : Char) : List String :=
  (splitOnChar sep s.data).map (fun l => ⟨l⟩)

/-- Translation of `extractNamespace` (controlapi.go lines 369 to 377):
split the subject on dots and read the third token. -/
def extractNamespace (subject : String) : Except String String :=
  let tokens := goSplit subject '.'
  if tokens.length < 3 then
    .error "Invalid subject - could not detect a namespace"
  else .ok (tokens.getD 2 "")

/-- Body of a stop request (`controlapi.StopRequest`). -/
structure StopRequest where
  workloadId : String
deriving DecidableEq, Repr

/-- Reply envelope published by the listener: either a failure envelope
built by `respondFail` (response type and reason), or the success
envelope of a stop. -/
inductive CtlReply
  | fail (rtype : String) (reason : String)
  | stopped (name : String) (issuer : String) (machineId : String)
deriving DecidableEq, Repr

/-- The `controlapi.StopResponseType` constant. -/
def stopResponseType : String := "StopResponse"

/-- Translation of the closure returned by `handleStop` (controlapi.go
lines 93 to 152). The `parsed` argument is the result of decoding the
request body, `validateRes` the outcome of the external claims check
`request.Validate`. The namespace is taken from the message subject; a
vmid missing from the registry and a namespace mismatch both answer the
same "No such workload" failure envelope without touching the registry.
This revision of the listener calls `StopMachine(request.WorkloadId)`,
modelled here with the manager stop and undeploy set; note the source
does not return after a failed stop, so the success envelope is sent as
well in that case. The result lists every reply sent. -/
def handleStop (s : MgrState) (subject : String)
    (parsed : Except String StopRequest) (validateRes : Except String Unit) :
    MgrState × List CtlReply :=
  match extractNamespace subject with
  | .error _ => (s, [.fail stopResponseType "Invalid subject for workload stop"])
  | .ok ns =>
    match parsed with
    | .error e =>
      (s, [.fail stopResponseType ("Unable to deserialize stop request: " ++ e)])
    | .ok req =>
      match lookupA s.allVMs req.workloadId with
      | none => (s, [.fail stopResponseType "No such workload"])
      | some vm =>
        if vm.ns ≠ ns then
          (s, [.fail stopResponseType "No such workload"])
        else
          match validateRes with
          | .error e =>
            (s, [.fail stopResponseType ("Invalid stop request: " ++ e)])
          | .ok _ =>
            let r := StopMachine s req.workloadId true
            let failReplies :=
              match r.1 with
              | .error e =>
                [CtlReply.fail stopResponseType ("Failed to stop workload: " ++ e)]
              | .ok _ => []
            (r.2, failReplies ++
              [.stopped vm.claimsSubject vm.claimsIssuer vm.vmmID])

/-! ## Concrete instances used to exercise the model -/

/-- A freshly warmed VM record, not yet deployed. -/
def vmWarm : VMRec := { vmmID := "vm1" }

/-- Manager state of a fresh node right after the pool maintainer
admitted one warm VM: the VM is registered with its lock, the VM counter
is 1, and every workload counter is still at zero. -/
def sFresh : MgrState :=
  { allVMs := [("vm1", vmWarm)], stopMutex := ["vm1"], tele := { vmCounter := 1 } }

/-- Deploy request for a v8 workload with two trigger subjects. -/
def reqV8 : DeployRequest :=
  { workloadName := "w", workloadType := "v8", ns := "ns1", totalBytes := 100,
    triggerSubjects := ["t.a", "t.b"] }

/-- Deploy environment in which the agent accepts and the subscription
to `t.b` fails. -/
def envSubFail : DeployEnv :=
  { deployReply := .reply { accepted := true },
    subscribeErr := fun t => if t = "t.b" then some "nats subscribe error on t.b" else none,
    supportsTriggerSubjects := true }

/-- Deploy environment in which the agent accepts and every trigger
subscription succeeds. -/
def envSubOk : DeployEnv :=
  { deployReply := .reply { accepted := true }, supportsTriggerSubjects := true }

/-- Watchdog environment with an always-empty handshake table and the
manager never stopping. -/
def hsEnvEmpty : HsEnv := { table := fun _ => [], stopping := fun _ => false }

/-- Watchdog environment whose handshake table holds an entry for some
other VM from the start. -/
def hsEnvOther : HsEnv :=
  { table := fun _ => [("other", "t0")], stopping := fun _ => false }

/-- Manager state with one VM deployed in namespace `nsA`. -/
def sDeployedA : MgrState :=
  { allVMs := [("vm1", { vmWarm with ns := "nsA", deployRequest := some reqV8 })]
    stopMutex := ["vm1"] }

/-- Temp directory listing used against the socket cleanup: one socket
of pid 42, an unrelated file, a socket of another pid, and a name that
merely contains the pid-42 marker without matching the
`.firecracker.sock-42-*` pattern. -/
def entries42 : List String :=
  [".firecracker.sock-42-abc", "other.txt", ".firecracker.sock-7-x",
   "x.firecracker.sock-42-y"]

/-! ## Helper lemmas about the map operations -/

theorem lookupA_eraseA_self {α : Type} (l : List (String × α)) (k : String) :
    lookupA (eraseA l k) k = none := by
  induction l with
  | nil => rfl
  | cons p rest ih =>
    obtain ⟨a, v⟩ := p
    by_cases h : a = k
    · simpa [eraseA, h] using ih
    · simpa [eraseA, lookupA, h] using ih

theorem lookupA_putA_self {α : Type} (l : List (String × α)) (k : String) (v : α) :
    lookupA (putA l k v) k = some v := by
  induction l with
  | nil => simp [putA, lookupA]
  | cons p rest ih =>
    obtain ⟨a, w⟩ := p
    by_cases h : a = k
    · simp [putA, h, lookupA]
    · simpa [putA, h, lookupA] using ih

theorem lookupA_updateA_self {α : Type} (l : List (String × α)) (k : String)
    (f : α → α) (v : α) (h : lookupA l k = some v) :
    lookupA (updateA l k f) k = some (f v) := by
  unfold updateA
  rw [h]
  exact lookupA_putA_self l k (f v)

/-! ## Helper lemmas about the pool channel -/

theorem chanSend_cap (s : PoolState) (v : String) : (chanSend s v).cap = s.cap := by
  unfold chanSend
  split <;> rfl

theorem chanSend_bound (s : PoolState) (v : String) (h : s.queue.length ≤ s.cap) :
    (chanSend s v).queue.length ≤ s.cap := by
  unfold chanSend
  split
  · next hlt => simpa using hlt
  · exact h

theorem poolStep_cap (s : PoolState) (op : PoolOp) : (poolStep s op).cap = s.cap := by
  cases op with
  | send v => simpa only [poolStep] using chanSend_cap s v
  | recv =>
    obtain ⟨q, c⟩ := s
    cases q <;> rfl
  | maintain v =>
    simp only [poolStep]
    unfold maintainerIter
    split
    · rfl
    · simpa using chanSend_cap s v

theorem poolStep_bound (s : PoolState) (op : PoolOp) (h : s.queue.length ≤ s.cap) :
    (poolStep s op).queue.length ≤ s.cap := by
  cases op with
  | send v => simpa only [poolStep] using chanSend_bound s v h
  | recv =>
    obtain ⟨q, c⟩ := s
    cases q with
    | nil => simp [poolStep, chanRecv]
    | cons a rest =>
      simp only [poolStep, chanRecv]
      simp at h ⊢
      omega
  | maintain v =>
    simp only [poolStep]
    unfold maintainerIter
    split
    · exact h
    · simpa using chanSend_bound s v h

theorem poolRun_bound (ops : List PoolOp) :
    ∀ s : PoolState, s.queue.length ≤ s.cap →
      (poolRun s ops).queue.length ≤ (poolRun s ops).cap ∧ (poolRun s ops).cap = s.cap := by
  induction ops with
  | nil => intro s h; exact ⟨h, rfl⟩
  | cons op rest ih =>
    intro s h
    have hstep : (poolStep s op).queue.length ≤ (poolStep s op).cap := by
      rw [poolStep_cap]
      exact poolStep_bound s op h
    have hr := ih (poolStep s op) hstep
    refine ⟨hr.1, ?_⟩
    rw [poolRun, ] at *
    rw [hr.2, poolStep_cap]

/-! ## Helper lemmas about the handshake watchdog -/

theorem awaitHandshake_cancel_sound (env : HsEnv) (vmid : String) (timeoutAt : Nat) :
    ∀ fuel t hsOk, awaitHandshake env vmid timeoutAt fuel t hsOk = some HsResult.cancelNode →
      ∃ u, timeoutAt < u ∧ env.table u = [] := by
  intro fuel
  induction fuel with
  | zero => intro t hsOk h; exact absurd h (by simp [awaitHandshake])
  | succ n ih =>
    intro t hsOk h
    rw [awaitHandshake] at h
    split at h
    · exact absurd h (by simp)
    · split at h
      · exact absurd h (by simp)
      · split at h
        · split at h
          · next h1 h2 h3 h4 =>
            exact ⟨t, h3, by simpa using h4⟩
          · exact absurd h (by simp)
        · exact ih (t + 1) _ h

theorem awaitHandshake_log_sound (env : HsEnv) (vmid : String) (timeoutAt : Nat) :
    ∀ fuel t hsOk, awaitHandshake env vmid timeoutAt fuel t hsOk = some HsResult.logTimeoutOnly →
      ∃ u, timeoutAt < u ∧ env.table u ≠ [] := by
  intro fuel
  induction fuel with
  | zero => intro t hsOk h; exact absurd h (by simp [awaitHandshake])
  | succ n ih =>
    intro t hsOk h
    rw [awaitHandshake] at h
    split at h
    · exact absurd h (by simp)
    · split at h
      · exact absurd h (by simp)
      · split at h
        · split at h
          · exact absurd h (by simp)
          · next h1 h2 h3 h4 =>
            exact ⟨t, h3, by simpa using h4⟩
        · exact ih (t + 1) _ h

theorem awaitHandshake_timeout_step (env : HsEnv) (vmid : String)
    (timeoutAt fuel t : Nat) (hstop : env.stopping t = false) (ht : timeoutAt < t) :
    awaitHandshake env vmid timeoutAt (fuel + 1) t false =
      if env.table t = [] then some HsResult.cancelNode
      else some HsResult.logTimeoutOnly := by
  rw [awaitHandshake]
  simp [hstop, ht, List.isEmpty_iff]

theorem awaitHandshake_fires (env : HsEnv) (vmid : String) (timeoutAt : Nat)
    (hno : ∀ u, lookupA (env.table u) vmid = none)
    (hstop : ∀ u, env.stopping u = false) :
    ∀ fuel t, 1 ≤ fuel → timeoutAt + 2 ≤ t + fuel →
      ∃ u, timeoutAt < u ∧
        awaitHandshake env vmid timeoutAt fuel t false =
          (if env.table u = [] then some HsResult.cancelNode
           else some HsResult.logTimeoutOnly) := by
  intro fuel
  induction fuel with
  | zero => intro t hf _; exact absurd hf (by decide)
  | succ n ih =>
    intro t _ h
    by_cases ht : timeoutAt < t
    · exact ⟨t, ht, awaitHandshake_timeout_step env vmid timeoutAt n t (hstop t) ht⟩
    · have hrec := ih (t + 1) (by omega) (by omega)
      obtain ⟨u, hu, hrun⟩ := hrec
      refine ⟨u, hu, ?_⟩
      rw [awaitHandshake]
      simp only [hstop t, hno t]
      rw [if_neg (by simp), if_neg (by simp), if_neg (by omega)]
      simpa using hrun

/-! ## Helper lemmas about deployment -/

theorem deploySubscribeLoop_ok (env : DeployEnv) (vmID : String) :
    ∀ ts s, (∀ t ∈ ts, env.subscribeErr t = none) →
      (deploySubscribeLoop env vmID s ts).2 = none ∧
      (deploySubscribeLoop env vmID s ts).1.allVMs = s.allVMs := by
  intro ts
  induction ts with
  | nil => intro s _; exact ⟨rfl, rfl⟩
  | cons t rest ih =>
    intro s h
    have ht : env.subscribeErr t = none := h t (by simp)
    simp only [deploySubscribeLoop, ht]
    exact ih _ (fun x hx => h x (by simp [hx]))

theorem deployIncrCounters_allVMs (s : MgrState) (vmID : String) :
    (deployIncrCounters s vmID).allVMs = s.allVMs := by
  unfold deployIncrCounters
  split
  · rfl
  · split
    · rfl
    · rfl

theorem StopMachine_notFound (s : MgrState) (vmID : String) (u : Bool)
    (h : lookupA s.allVMs vmID = none) :
    StopMachine s vmID u = (.error ("failed to stop machine " ++ vmID), s) := by
  simp [StopMachine, h]

theorem StopMachine_found (s : MgrState) (vmID : String) (u : Bool) (vm : VMRec)
    (h : lookupA s.allVMs vmID = some vm) :
    (StopMachine s vmID u).1 = .ok () ∧
    (StopMachine s vmID u).2.allVMs = eraseA s.allVMs vmID ∧
    (StopMachine s vmID u).2.shutdowns = s.shutdowns ++ [vm.vmmID] ∧
    (StopMachine s vmID u).2.internalRequests = s.internalRequests ++
      (if vm.deployRequest.isSome && u then
        ["agentint." ++ vm.vmmID ++ ".undeploy"]
      else []) ∧
    (StopMachine s vmID u).2.events = s.events ++ ["machine_stopped:" ++ vm.vmmID] ∧
    (StopMachine s vmID u).2.tele = stopDecrCounters s.tele vm := by
  refine ⟨?_, ?_, ?_, ?_, ?_, ?_⟩ <;> simp [StopMachine, h]

theorem timeout_error_distinct (e : String) :
    "timed out waiting for acknowledgement of workload deployment" ≠
      "failed to submit request for workload deployment: " ++ e := by
  intro h
  obtain ⟨ed⟩ := e
  have h3 : (some 't' : Option Char) = some 'f' :=
    congrArg List.head? (congrArg String.data h)
  simp at h3

/-! ## Claim theorems -/

/-- C1: whenever the handshake watchdog runs and the vmid never appears in
the handshake table while the manager is not stopping, the run reaches the
timeout branch after the deadline; at that branch an empty handshake table
triggers the node-wide cancel and a non-empty table only logs the timeout;
conversely, a cancel outcome happens only with an empty table at a moment
past the deadline, and a log-only outcome only with a non-empty table at
such a moment. -/
theorem awaitHandshake_first_failure_fatal (env : HsEnv) (vmid : String)
    (timeoutAt fuel t : Nat) (hsOk : Bool) :
    (awaitHandshake env vmid timeoutAt fuel t hsOk = some HsResult.cancelNode →
      ∃ u, timeoutAt < u ∧ env.table u = []) ∧
    (awaitHandshake env vmid timeoutAt fuel t hsOk = some HsResult.logTimeoutOnly →
      ∃ u, timeoutAt < u ∧ env.table u ≠ []) ∧
    (env.stopping t = false → timeoutAt < t →
      awaitHandshake env vmid timeoutAt (fuel + 1) t false =
        if env.table t = [] then some HsResult.cancelNode
        else some HsResult.logTimeoutOnly) ∧
    ((∀ u, lookupA (env.table u) vmid = none) → (∀ u, env.stopping u = false) →
      1 ≤ fuel → timeoutAt + 2 ≤ t + fuel →
      ∃ u, timeoutAt < u ∧
        awaitHandshake env vmid timeoutAt fuel t false =
          (if env.table u = [] then some HsResult.cancelNode
           else some HsResult.logTimeoutOnly)) := by
  refine ⟨?_, ?_, ?_, ?_⟩
  · exact awaitHandshake_cancel_sound env vmid timeoutAt fuel t hsOk
  · exact awaitHandshake_log_sound env vmid timeoutAt fuel t hsOk
  · exact awaitHandshake_timeout_step env vmid timeoutAt fuel t
  · exact fun hno hstop => awaitHandshake_fires env vmid timeoutAt hno hstop fuel t

/-- Witness for C1: with an always-empty table the watchdog cancels the
node, with a table holding another VM it only logs. -/
theorem awaitHandshake_first_failure_fatal_witness :
    awaitHandshake hsEnvEmpty "vm1" 5 1 6 false = some HsResult.cancelNode ∧
    awaitHandshake hsEnvOther "vm1" 5 1 6 false = some HsResult.logTimeoutOnly := by
  constructor
  · have h :=
      (awaitHandshake_first_failure_fatal hsEnvEmpty "vm1" 5 0 6 false).2.2.1 rfl (by decide)
    simpa [hsEnvEmpty] using h
  · have h :=
      (awaitHandshake_first_failure_fatal hsEnvOther "vm1" 5 0 6 false).2.2.1 rfl (by decide)
    simpa [hsEnvOther] using h

/-- C5: under any interleaving of producer sends, consumer receives and
maintainer iterations, the warm pool channel never holds more records
than its capacity; a maintainer iteration at capacity creates no VM and
leaves the channel unchanged; a send into a full channel blocks, leaving
the queue unchanged rather than overflowing or dropping the record. -/
theorem pool_bound_and_blocking (s : PoolState) (ops : List PoolOp) (v : String) :
    (s.queue.length ≤ s.cap →
      (poolRun s ops).queue.length ≤ (poolRun s ops).cap ∧
      (poolRun s ops).cap = s.cap) ∧
    (s.queue.length = s.cap → maintainerIter s v = (s, false)) ∧
    (s.cap ≤ s.queue.length → chanSend s v = s) := by
  refine ⟨fun h => poolRun_bound ops s h, ?_, ?_⟩
  · intro h
    unfold maintainerIter
    rw [if_pos (by simp [h])]
  · intro h
    unfold chanSend
    rw [if_neg (by omega)]

/-- Witness for C5: a run over a capacity-2 channel stays within bound,
and at capacity both the maintainer and a send leave the queue as is. -/
theorem pool_bound_and_blocking_witness :
    (poolRun { queue := [], cap := 2 }
        [.maintain "a", .maintain "b", .send "c", .maintain "d"]).queue.length ≤ 2 ∧
    maintainerIter { queue := ["a", "b"], cap := 2 } "c" =
      ({ queue := ["a", "b"], cap := 2 }, false) ∧
    chanSend { queue := ["a", "b"], cap := 2 } "c" = { queue := ["a", "b"], cap := 2 } := by
  refine ⟨?_, ?_, ?_⟩
  · have h :=
      (pool_bound_and_blocking { queue := [], cap := 2 }
        [.maintain "a", .maintain "b", .send "c", .maintain "d"] "x").1 (by decide)
    exact le_of_le_of_eq h.1 h.2
  · exact (pool_bound_and_blocking { queue := ["a", "b"], cap := 2 } [] "c").2.1 (by decide)
  · exact (pool_bound_and_blocking { queue := ["a", "b"], cap := 2 } [] "c").2.2 (by decide)

/-- C9: a handshake from a machine id absent from the registry is ignored,
with no reply sent and the state untouched; whenever the handshake table
changed, the machine id was registered, the reply transport succeeded, a
reply was sent, and the change is exactly the first-seen record for that
machine id. -/
theorem handleHandshake_gating (s : MgrState) (req : HandshakeRequest)
    (ok : Bool) (now : String) :
    (lookupA s.allVMs req.machineID = none →
      handleHandshake s (some req) ok now = (s, false)) ∧
    ((handleHandshake s (some req) ok now).1.handshakes ≠ s.handshakes →
      (lookupA s.allVMs req.machineID).isSome = true ∧ ok = true ∧
      (handleHandshake s (some req) ok now).2 = true ∧
      (handleHandshake s (some req) ok now).1.handshakes =
        putA s.handshakes req.machineID now) := by
  constructor
  · intro h
    simp [handleHandshake, h]
  · intro hch
    cases hl : lookupA s.allVMs req.machineID with
    | none => simp [handleHandshake, hl] at hch
    | some vm =>
      cases ok with
      | false => simp [handleHandshake, hl] at hch
      | true =>
        refine ⟨by simp [hl], rfl, ?_, ?_⟩
        · simp [handleHandshake, hl]
        · simp [handleHandshake, hl]

/-- Witness for C9: an unknown machine id changes nothing and gets no
reply; a registered one with a delivered reply is recorded. -/
theorem handleHandshake_gating_witness :
    handleHandshake sFresh (some { machineID := "ghost" }) true "t1" = (sFresh, false) ∧
    (handleHandshake sFresh (some { machineID := "vm1" }) true "t1").1.handshakes =
      putA sFresh.handshakes "vm1" "t1" := by
  constructor
  · exact (handleHandshake_gating sFresh { machineID := "ghost" } true "t1").1 (by decide)
  · exact ((handleHandshake_gating sFresh { machineID := "vm1" } true "t1").2 (by decide)).2.2.2

/-- C10: with an empty allow-list every issuer is accepted; with a
non-empty allow-list exactly the listed issuers are accepted. -/
theorem validateIssuer_allowlist (issuer : String) (validIssuers : List String) :
    (validIssuers = [] → validateIssuer issuer validIssuers = true) ∧
    (validIssuers ≠ [] →
      (validateIssuer issuer validIssuers = true ↔ issuer ∈ validIssuers)) := by
  constructor
  · intro h
    subst h
    rfl
  · intro h
    cases validIssuers with
    | nil => exact absurd rfl h
    | cons a rest => simp [validateIssuer]

/-- Witness for C10: an unlisted issuer passes the empty allow-list and
fails a non-empty one. -/
theorem validateIssuer_allowlist_witness :
    validateIssuer "issA" [] = true ∧
    (validateIssuer "issA" ["issB"] = true ↔ "issA" ∈ ["issB"]) := by
  constructor
  · exact (validateIssuer_allowlist "issA" []).1 rfl
  · exact (validateIssuer_allowlist "issA" ["issB"]).2 (by decide)

/-- C7 (code bug): the internal trigger message carries the inbound
payload unchanged and the trigger-subject header, but the span context is
injected into the headers of the inbound message rather than those of the
internal message: the internal message headers are exactly the
trigger-subject entry with no traceparent, while the inbound message
headers receive the span context. -/
theorem trigger_injection_misdirected (vmID spanCtx : String) (msg : NMsg) :
    (triggerHandlerMsgs vmID spanCtx msg).1.payload = msg.payload ∧
    (triggerHandlerMsgs vmID spanCtx msg).1.subject = "agentint." ++ vmID ++ ".trigger" ∧
    (triggerHandlerMsgs vmID spanCtx msg).1.header = [(nexTriggerSubject, msg.subject)] ∧
    "traceparent" ∉ ((triggerHandlerMsgs vmID spanCtx msg).1.header.map Prod.fst) ∧
    ("traceparent", spanCtx) ∈ (triggerHandlerMsgs vmID spanCtx msg).2.header := by
  refine ⟨rfl, rfl, rfl, ?_, ?_⟩
  · simp [triggerHandlerMsgs, nexTriggerSubject]
  · simp [triggerHandlerMsgs, injectTraceContext]

/-- C2: stopping a vmid absent from the registry returns the NotFound
error and leaves the whole manager state — registry maps, counters and
effect traces — unchanged; after a first stop on a present vmid succeeds
and removes the record, a second stop on the same vmid returns NotFound
and changes nothing, so there is no second teardown and no second
counter decrement. -/
theorem stopMachine_notfound_idempotent (s s2 : MgrState) (vmID : String)
    (u u2 : Bool) :
    (lookupA s.allVMs vmID = none →
      StopMachine s vmID u = (.error ("failed to stop machine " ++ vmID), s)) ∧
    (∀ vm, lookupA s2.allVMs vmID = some vm →
      (StopMachine s2 vmID u).1 = .ok () ∧
      lookupA (StopMachine s2 vmID u).2.allVMs vmID = none ∧
      StopMachine (StopMachine s2 vmID u).2 vmID u2 =
        (.error ("failed to stop machine " ++ vmID), (StopMachine s2 vmID u).2)) := by
  constructor
  · exact StopMachine_notFound s vmID u
  · intro vm h
    have hfound := StopMachine_found s2 vmID u vm h
    have h2 : lookupA (StopMachine s2 vmID u).2.allVMs vmID = none := by
      rw [hfound.2.1]
      exact lookupA_eraseA_self s2.allVMs vmID
    exact ⟨hfound.1, h2, StopMachine_notFound (StopMachine s2 vmID u).2 vmID u2 h2⟩

/-- Witness for C2: stopping an unknown vmid on the empty manager is a
NotFound no-op, and a second stop after a successful one is NotFound. -/
theorem stopMachine_notfound_idempotent_witness :
    StopMachine {} "ghost" true =
      (.error ("failed to stop machine " ++ "ghost"), {}) ∧
    (StopMachine (StopMachine sFresh "vm1" true).2 "vm1" false).1 =
      .error ("failed to stop machine " ++ "vm1") := by
  constructor
  · exact (stopMachine_notfound_idempotent {} {} "ghost" true true).1 rfl
  · have h :=
      ((stopMachine_notfound_idempotent {} sFresh "vm1" true false).2 vmWarm (by decide)).2.2
    rw [h]

/-- C6: a control-plane stop whose subject namespace differs from the
namespace bound to the target VM answers the same "No such workload"
failure envelope as a stop naming a vmid that does not exist at all, and
leaves the manager state — in particular the target VM record —
unchanged. -/
theorem handleStop_namespace_isolation (s s2 : MgrState) (subject : String)
    (req req2 : StopRequest) (v v2 : Except String Unit) (ns : String) (vm : VMRec)
    (hns : extractNamespace subject = .ok ns)
    (hvm : lookupA s.allVMs req.workloadId = some vm)
    (hmm : vm.ns ≠ ns)
    (habs : lookupA s2.allVMs req2.workloadId = none) :
    handleStop s subject (.ok req) v =
      (s, [.fail stopResponseType "No such workload"]) ∧
    handleStop s2 subject (.ok req2) v2 =
      (s2, [.fail stopResponseType "No such workload"]) ∧
    lookupA (handleStop s subject (.ok req) v).1.allVMs req.workloadId = some vm := by
  have hmain : handleStop s subject (.ok req) v =
      (s, [.fail stopResponseType "No such workload"]) := by
    simp [handleStop, hns, hvm, hmm]
  refine ⟨hmain, ?_, ?_⟩
  · simp [handleStop, hns, habs]
  · rw [hmain]
    exact hvm

/-- Witness for C6: a cross-namespace stop of the deployed VM and a stop
of an unknown vmid produce the same failure envelope. -/
theorem handleStop_namespace_isolation_witness :
    handleStop sDeployedA "$NEX.STOP.nsB.node1" (.ok { workloadId := "vm1" }) (.ok ()) =
      (sDeployedA, [.fail stopResponseType "No such workload"]) ∧
    handleStop sFresh "$NEX.STOP.nsB.node1" (.ok { workloadId := "ghost" }) (.ok ()) =
      (sFresh, [.fail stopResponseType "No such workload"]) := by
  have h := handleStop_namespace_isolation sDeployedA sFresh "$NEX.STOP.nsB.node1"
    { workloadId := "vm1" } { workloadId := "ghost" } (.ok ()) (.ok ()) "nsB"
    ({ vmWarm with ns := "nsA", deployRequest := some reqV8 })
    rfl (by decide) (by decide) (by decide)
  exact ⟨h.1, h.2.1⟩

/-- C3 (code bug): deploying a trigger-supporting v8 workload on a fresh
node where the subscription to `t.b` fails stops the VM with undeploy
(the undeploy request is sent and the record is removed) and returns the
subscription error, but the workload counter labeled (v8, ns1) ends at
-1 rather than its pre-deploy value 0: the stop path decrements a
counter the aborted deploy never incremented. -/
theorem deploy_subscribe_failure_counter_bug :
    (DeployWorkload envSubFail sFresh "vm1" reqV8).1 =
      .error "nats subscribe error on t.b" ∧
    (DeployWorkload envSubFail sFresh "vm1" reqV8).2.shutdowns = ["vm1"] ∧
    (DeployWorkload envSubFail sFresh "vm1" reqV8).2.internalRequests =
      ["agentint.vm1.deploy", "agentint.vm1.undeploy"] ∧
    lookupA (DeployWorkload envSubFail sFresh "vm1" reqV8).2.allVMs "vm1" = none ∧
    (DeployWorkload envSubFail sFresh "vm1" reqV8).2.tele.workloadCounterTyNs
      "v8" "ns1" = -1 := by
  exact ⟨rfl, by decide, by decide, by decide, by decide⟩

/-- C4 counterexample: on a deploy timeout the source returns the error
"timed out waiting for acknowledgement of workload deployment", which
does not contain the wording "handshake for deployment exceeded" stated
by the claim. -/
theorem deploy_timeout_message_counterexample :
    (DeployWorkload { deployReply := .timeout } sFresh "vm1" reqV8).1 =
      .error "timed out waiting for acknowledgement of workload deployment" ∧
    strContains "timed out waiting for acknowledgement of workload deployment"
      "handshake for deployment exceeded" = false := by
  exact ⟨rfl, by decide⟩

/-- C4 (amended): an accepted reply leaves the VM registered with the
deploy binding and returns ok; a rejected reply stops the VM without
undeploy and surfaces the agent rejection message; no reply within the
timeout returns the dedicated error "timed out waiting for
acknowledgement of workload deployment", distinct from every other
transport error. -/
theorem deploy_reply_interpretation (env : DeployEnv) (s : MgrState)
    (vmID : String) (req : DeployRequest) (vm : VMRec) (dr : DeployResponse) :
    (env.deployReply = .reply dr → dr.accepted = true →
      (∀ t ∈ req.triggerSubjects, env.subscribeErr t = none) →
      lookupA s.allVMs vmID = some vm →
      (DeployWorkload env s vmID req).1 = .ok () ∧
      lookupA (DeployWorkload env s vmID req).2.allVMs vmID =
        some { vm with deployRequest := some req, ns := req.ns,
                       workloadStarted := env.now }) ∧
    (env.deployReply = .reply dr → dr.accepted = false →
      lookupA s.allVMs vmID = some vm →
      (DeployWorkload env s vmID req).1 =
        .error ("workload rejected by agent: " ++ dr.message) ∧
      (DeployWorkload env s vmID req).2.shutdowns = s.shutdowns ++ [vm.vmmID] ∧
      (DeployWorkload env s vmID req).2.internalRequests =
        s.internalRequests ++ ["agentint." ++ vmID ++ ".deploy"]) ∧
    (env.deployReply = .timeout →
      (DeployWorkload env s vmID req).1 =
        .error "timed out waiting for acknowledgement of workload deployment" ∧
      ∀ e, ("timed out waiting for acknowledgement of workload deployment" : String) ≠
        "failed to submit request for workload deployment: " ++ e) := by
  refine ⟨?_, ?_, ?_⟩
  · intro hr ha hsub hvm
    have hbound := lookupA_updateA_self s.allVMs vmID
      (fun w => { w with deployRequest := some req, ns := req.ns,
                         workloadStarted := env.now }) vm hvm
    by_cases hsupp : env.supportsTriggerSubjects = true
    · rcases hloop : deploySubscribeLoop env vmID
          { s with
            allVMs := updateA s.allVMs vmID (fun w =>
              { w with deployRequest := some req, ns := req.ns,
                       workloadStarted := env.now })
            internalRequests := s.internalRequests ++ ["agentint." ++ vmID ++ ".deploy"] }
          req.triggerSubjects with ⟨s1, e1⟩
      have hok := deploySubscribeLoop_ok env vmID req.triggerSubjects
        { s with
          allVMs := updateA s.allVMs vmID (fun w =>
            { w with deployRequest := some req, ns := req.ns,
                     workloadStarted := env.now })
          internalRequests := s.internalRequests ++ ["agentint." ++ vmID ++ ".deploy"] }
        hsub
      rw [hloop] at hok
      have he1 : e1 = none := hok.1
      subst he1
      constructor
      · simp [DeployWorkload, hr, ha, hsupp, hloop]
      · simp [DeployWorkload, hr, ha, hsupp, hloop, deployIncrCounters_allVMs]
        rw [hok.2]
        exact hbound
    · constructor
      · simp [DeployWorkload, hr, ha, hsupp]
      · simp [DeployWorkload, hr, ha, hsupp, deployIncrCounters_allVMs]
        exact hbound
  · intro hr ha hvm
    have hbound := lookupA_updateA_self s.allVMs vmID
      (fun w => { w with deployRequest := some req, ns := req.ns,
                         workloadStarted := env.now }) vm hvm
    have hstop := StopMachine_found
      { s with
        allVMs := updateA s.allVMs vmID (fun w =>
          { w with deployRequest := some req, ns := req.ns,
                   workloadStarted := env.now })
        internalRequests := s.internalRequests ++ ["agentint." ++ vmID ++ ".deploy"] }
      vmID false _ hbound
    refine ⟨by simp [DeployWorkload, hr, ha], ?_, ?_⟩
    · have h1 := hstop.2.2.1
      simp only [DeployWorkload, hr, ha] at *
      simp [h1]
    · have h2 := hstop.2.2.2.1
      simp only [DeployWorkload, hr, ha] at *
      simp [h2]
  · intro hr
    exact ⟨by simp [DeployWorkload, hr], timeout_error_distinct⟩

/-- Witness for C4: the three reply shapes at concrete inputs. -/
theorem deploy_reply_interpretation_witness :
    (DeployWorkload envSubOk sFresh "vm1" reqV8).1 = .ok () ∧
    (DeployWorkload { deployReply := .reply { accepted := false, message := "no" } }
        sFresh "vm1" reqV8).1 = .error ("workload rejected by agent: " ++ "no") ∧
    (DeployWorkload { deployReply := .timeout } sFresh "vm1" reqV8).1 =
      .error "timed out waiting for acknowledgement of workload deployment" := by
  refine ⟨?_, ?_, ?_⟩
  · exact ((deploy_reply_interpretation envSubOk sFresh "vm1" reqV8 vmWarm
      { accepted := true }).1 rfl rfl (by intro t ht; rfl) (by decide)).1
  · exact ((deploy_reply_interpretation
      { deployReply := .reply { accepted := false, message := "no" } }
      sFresh "vm1" reqV8 vmWarm { accepted := false, message := "no" }).2.1
      rfl rfl (by decide)).1
  · exact ((deploy_reply_interpretation { deployReply := .timeout }
      sFresh "vm1" reqV8 vmWarm { accepted := true }).2.2 rfl).1

/-- C8 (code bug): the manager shutdown body runs at most once — the
second Stop only bumps the closing flag, removes nothing and performs no
second teardown — but the socket-cleanup step selects names by substring
containment, so it also picks `x.firecracker.sock-42-y`, and it removes
paths joined under the relative directory `tmp` rather than the files of
the system temp directory it listed. -/
theorem mgrStop_once_and_socket_cleanup :
    (MgrStop sFresh 42 entries42).1.shutdowns = ["vm1"] ∧
    (MgrStop sFresh 42 entries42).1.poolClosed = true ∧
    (MgrStop sFresh 42 entries42).2 =
      ["tmp/.firecracker.sock-42-abc", "tmp/x.firecracker.sock-42-y"] ∧
    "/tmp/.firecracker.sock-42-abc" ∉ (MgrStop sFresh 42 entries42).2 ∧
    (MgrStop (MgrStop sFresh 42 entries42).1 42 entries42).2 = [] ∧
    (MgrStop (MgrStop sFresh 42 entries42).1 42 entries42).1.closing = 2 ∧
    (MgrStop (MgrStop sFresh 42 entries42).1 42 entries42).1.shutdowns = ["vm1"] ∧
    (MgrStop (MgrStop sFresh 42 entries42).1 42 entries42).1.events =
      (MgrStop sFresh 42 entries42).1.events := by
  exact ⟨by decide, by decide, by decide, by decide, by decide, by decide,
    by decide, by decide⟩

end Nex
